import Mathlib

/-!
Verification of the Black-Scholes option pricing engine
(`streamlit_app.py`, class `BlackScholes` and the module-level grid loop).

The Python code works on IEEE doubles and calls `scipy.stats.norm.cdf` /
`norm.pdf`; the embedding works over `ℝ`, with the standard normal density
and its cumulative integral defined explicitly.
-/

open MeasureTheory

/-- Standard normal probability density function, the meaning of
`scipy.stats.norm.pdf`: `exp (-x^2/2) / sqrt (2*pi)`. -/
noncomputable def normPdf (x : ℝ) : ℝ :=
  Real.exp (-(x ^ 2) / 2) / Real.sqrt (2 * Real.pi)

/-- Standard normal cumulative distribution function, the meaning of
`scipy.stats.norm.cdf`: the integral of the density over `(-∞, x]`. -/
noncomputable def normCdf (x : ℝ) : ℝ :=
  ∫ t in Set.Iic x, normPdf t

lemma sqrt_two_pi_pos : 0 < Real.sqrt (2 * Real.pi) :=
  Real.sqrt_pos.mpr (by positivity)

lemma normPdf_pos (x : ℝ) : 0 < normPdf x :=
  div_pos (Real.exp_pos _) sqrt_two_pi_pos

lemma normPdf_neg_arg (x : ℝ) : normPdf (-x) = normPdf x := by
  simp [normPdf]

lemma normPdf_eq_gauss (x : ℝ) :
    normPdf x = Real.exp (-(2⁻¹ : ℝ) * x ^ 2) * (Real.sqrt (2 * Real.pi))⁻¹ := by
  rw [normPdf, div_eq_mul_inv]
  ring_nf

lemma integrable_normPdf : Integrable normPdf := by
  have h := (integrable_exp_neg_mul_sq (b := (2⁻¹ : ℝ)) (by norm_num)).mul_const
    (Real.sqrt (2 * Real.pi))⁻¹
  refine h.congr ?_
  filter_upwards with x
  rw [normPdf_eq_gauss]

lemma integral_normPdf : (∫ t, normPdf t) = 1 := by
  have h : (∫ t : ℝ, Real.exp (-(2⁻¹ : ℝ) * t ^ 2)) = Real.sqrt (Real.pi / 2⁻¹) :=
    integral_gaussian (2⁻¹ : ℝ)
  have h2 : (∫ t, normPdf t)
      = (∫ t : ℝ, Real.exp (-(2⁻¹ : ℝ) * t ^ 2)) * (Real.sqrt (2 * Real.pi))⁻¹ := by
    rw [← integral_mul_right]
    refine integral_congr_ae ?_
    filter_upwards with x
    rw [normPdf_eq_gauss]
  rw [h2, h]
  have h3 : Real.pi / (2⁻¹ : ℝ) = 2 * Real.pi := by ring
  rw [h3, mul_inv_cancel₀ (ne_of_gt sqrt_two_pi_pos)]

lemma normCdf_add_Ioi (x : ℝ) :
    normCdf x + (∫ t in Set.Ioi x, normPdf t) = 1 := by
  have h := integral_add_compl (measurableSet_Iic (a := x)) integrable_normPdf
  rw [Set.compl_Iic] at h
  rw [normCdf, h, integral_normPdf]

lemma integral_Ioi_normPdf_pos (x : ℝ) : 0 < ∫ t in Set.Ioi x, normPdf t := by
  rw [setIntegral_pos_iff_support_of_nonneg_ae
    (Filter.Eventually.of_forall fun t => (normPdf_pos t).le)
    integrable_normPdf.integrableOn]
  have hsupp : Function.support normPdf = Set.univ :=
    Set.eq_univ_of_forall fun t => (normPdf_pos t).ne'
  rw [hsupp, Set.univ_inter, Real.volume_Ioi]
  exact ENNReal.zero_lt_top

lemma normCdf_lt_one (x : ℝ) : normCdf x < 1 := by
  have h := normCdf_add_Ioi x
  have hp := integral_Ioi_normPdf_pos x
  linarith

lemma normCdf_pos (x : ℝ) : 0 < normCdf x := by
  have h : 0 < ∫ t in Set.Iic x, normPdf t := by
    rw [setIntegral_pos_iff_support_of_nonneg_ae
      (Filter.Eventually.of_forall fun t => (normPdf_pos t).le)
      integrable_normPdf.integrableOn]
    have hsupp : Function.support normPdf = Set.univ :=
      Set.eq_univ_of_forall fun t => (normPdf_pos t).ne'
    rw [hsupp, Set.univ_inter, Real.volume_Iic]
    exact ENNReal.zero_lt_top
  exact h

lemma normCdf_neg_arg (x : ℝ) : normCdf (-x) = 1 - normCdf x := by
  have h1 : normCdf (-x) = ∫ t in Set.Iic (-x), normPdf (-t) := by
    rw [normCdf]
    refine integral_congr_ae ?_
    filter_upwards with t
    rw [normPdf_neg_arg]
  have h2 : (∫ t in Set.Iic (-x), normPdf (-t)) = ∫ t in Set.Ioi x, normPdf t := by
    rw [integral_comp_neg_Iic, neg_neg]
  have h3 := normCdf_add_Ioi x
  rw [h1, h2]
  linarith

/-! ### Embedding of `class BlackScholes` (`streamlit_app.py`, lines 11-62)

The constructor stores five scalar inputs; `run` computes d1, d2, the call
and put prices and the Greeks from them and stores the results as further
attributes on the object. -/

/-- The five input fields set by `BlackScholes.__init__`, in source order. -/
structure BlackScholes where
  time_to_maturity : ℝ
  strike : ℝ
  current_price : ℝ
  volatility : ℝ
  interest_rate : ℝ

/-- The six result attributes that `BlackScholes.run` stores on the object. -/
structure RunResult where
  call_price : ℝ
  put_price : ℝ
  call_delta : ℝ
  put_delta : ℝ
  call_gamma : ℝ
  put_gamma : ℝ

/-- The intermediate `d1` computed in `BlackScholes.run` (lines 35-40):
`(log(current_price/strike) + (interest_rate + 0.5*volatility**2)*time_to_maturity)
 / (volatility*sqrt(time_to_maturity))`. -/
noncomputable def BlackScholes.d1 (bs : BlackScholes) : ℝ :=
  (Real.log (bs.current_price / bs.strike) +
    (bs.interest_rate + 0.5 * bs.volatility ^ 2) * bs.time_to_maturity) /
    (bs.volatility * Real.sqrt bs.time_to_maturity)

/-- The intermediate `d2 = d1 - volatility*sqrt(time_to_maturity)` (line 41). -/
noncomputable def BlackScholes.d2 (bs : BlackScholes) : ℝ :=
  bs.d1 - bs.volatility * Real.sqrt bs.time_to_maturity

/-- Method `run` (lines 26-62), as the map from the input fields to the
six result attributes it stores.  Note two places where the source deviates
from the standard formulas: `put_delta` is `1 - norm.cdf(d1)` (line 56) and
`call_gamma` divides by `strike` (line 60). -/
noncomputable def BlackScholes.run (bs : BlackScholes) : RunResult where
  call_price := bs.current_price * normCdf bs.d1 -
    bs.strike * Real.exp (-(bs.interest_rate * bs.time_to_maturity)) * normCdf bs.d2
  put_price := bs.strike * Real.exp (-(bs.interest_rate * bs.time_to_maturity)) *
    normCdf (-bs.d2) - bs.current_price * normCdf (-bs.d1)
  call_delta := normCdf bs.d1
  put_delta := 1 - normCdf bs.d1
  call_gamma := normPdf bs.d1 /
    (bs.strike * bs.volatility * Real.sqrt bs.time_to_maturity)
  put_gamma := normPdf bs.d1 /
    (bs.strike * bs.volatility * Real.sqrt bs.time_to_maturity)

/-- The errors relevant to the validation claim: the `InvalidParameter`
failure the spec prescribes, and the `ZeroDivisionError` that Python float
division raises.  The source never raises `InvalidParameter`. -/
inductive RunError where
  | invalidParameter (field : String)
  | zeroDivisionError
  deriving DecidableEq

/-- Method `run` with its abort behaviour made explicit.  The method
body contains no validation; the only aborting operation is the float
division `current_price / strike` (line 36), which raises
`ZeroDivisionError` exactly when `strike = 0`.  All other operations
(numpy `log`, `sqrt`, `exp`, `norm.cdf`) return values (possibly
non-finite) without raising. -/
noncomputable def BlackScholes.runExc (bs : BlackScholes) :
    Except RunError RunResult :=
  if bs.strike = 0 then .error .zeroDivisionError else .ok bs.run

/-- The object state: the five constructor fields plus the result attributes,
absent (`none`) until `run` has been called. -/
structure BSObject where
  params : BlackScholes
  results : Option RunResult

/-- Constructor `__init__` (lines 12-24): stores the five inputs; no result
attributes exist yet. -/
def initBS (time_to_maturity strike current_price volatility interest_rate : ℝ) :
    BSObject :=
  ⟨⟨time_to_maturity, strike, current_price, volatility, interest_rate⟩, none⟩

/-- The effect of calling `run` on the object: the result attributes are
assigned (lines 50-62); the five input fields are only read (lines 29-33). -/
noncomputable def BSObject.runObj (o : BSObject) : BSObject :=
  ⟨o.params, some o.params.run⟩

/-! ### Embedding of the module-level grid setup (lines 200-213) -/

/-- Embedding of `numpy.linspace(start, stop, num)`: `num` points `start + i*(stop-start)/(num-1)`,
endpoint included. -/
noncomputable def linspace (start stop : ℝ) (num : ℕ) : List ℝ :=
  (List.range num).map fun i : ℕ =>
    start + (stop - start) * (i : ℝ) / ((num - 1 : ℕ) : ℝ)

/-- Line 201: `spot_range = np.linspace(current_price * 0.5, current_price * 1.5, 50)` -/
noncomputable def spot_range (current_price : ℝ) : List ℝ :=
  linspace (current_price * 0.5) (current_price * 1.5) 50

/-- Line 202: `vol_range = np.linspace(max(0.01, volatility * 0.5), min(1.0, volatility * 1.5), 50)`. -/
noncomputable def vol_range (volatility : ℝ) : List ℝ :=
  linspace (max 0.01 (volatility * 0.5)) (min 1.0 (volatility * 1.5)) 50

/-- The grid loop (lines 208-213) for `call_prices`: row `i` ranges over
`vol_range`, column `j` over `spot_range`; each cell constructs
`BlackScholes(time_to_maturity, strike, spot, vol, interest_rate)`, runs it
and stores `call_price`. -/
noncomputable def call_prices
    (time_to_maturity strike current_price volatility interest_rate : ℝ) :
    List (List ℝ) :=
  (vol_range volatility).map fun vol =>
    (spot_range current_price).map fun spot =>
      (BlackScholes.run ⟨time_to_maturity, strike, spot, vol, interest_rate⟩).call_price

/-- The grid loop for `put_prices` (line 213). -/
noncomputable def put_prices
    (time_to_maturity strike current_price volatility interest_rate : ℝ) :
    List (List ℝ) :=
  (vol_range volatility).map fun vol =>
    (spot_range current_price).map fun spot =>
      (BlackScholes.run ⟨time_to_maturity, strike, spot, vol, interest_rate⟩).put_price

/-! ### Definitions transcribed from the spec, for the refinement claims -/

/-- Spec formula: `d1 = (ln(spot/strike) + (rate + 0.5*volatility^2)*maturity)
/ (volatility*sqrt(maturity))`. -/
noncomputable def specD1 (spot strike maturity volatility rate : ℝ) : ℝ :=
  (Real.log (spot / strike) + (rate + 0.5 * volatility ^ 2) * maturity) /
    (volatility * Real.sqrt maturity)

/-- Spec formula: `d2 = d1 - volatility*sqrt(maturity)`. -/
noncomputable def specD2 (spot strike maturity volatility rate : ℝ) : ℝ :=
  specD1 spot strike maturity volatility rate - volatility * Real.sqrt maturity

/-- Spec formula: `callPrice = spot*Φ(d1) - strike*exp(-rate*maturity)*Φ(d2)`. -/
noncomputable def specCallPrice (spot strike maturity volatility rate : ℝ) : ℝ :=
  spot * normCdf (specD1 spot strike maturity volatility rate) -
    strike * Real.exp (-(rate * maturity)) *
      normCdf (specD2 spot strike maturity volatility rate)

/-- Spec formula: `putPrice = strike*exp(-rate*maturity)*Φ(-d2) - spot*Φ(-d1)`. -/
noncomputable def specPutPrice (spot strike maturity volatility rate : ℝ) : ℝ :=
  strike * Real.exp (-(rate * maturity)) *
      normCdf (-specD2 spot strike maturity volatility rate) -
    spot * normCdf (-specD1 spot strike maturity volatility rate)

/-- Spec formula for gamma: `φ(d1) / (spot*volatility*sqrt(maturity))`. -/
noncomputable def specGamma (spot strike maturity volatility rate : ℝ) : ℝ :=
  normPdf (specD1 spot strike maturity volatility rate) /
    (spot * volatility * Real.sqrt maturity)

/-! ### Helper lemmas about the embedded list operations -/

lemma linspace_length (a b : ℝ) (n : ℕ) : (linspace a b n).length = n := by
  rw [linspace, List.length_map, List.length_range]

lemma linspace_getD (a b : ℝ) {i n : ℕ} (h : i < n) :
    (linspace a b n).getD i 0 = a + (b - a) * i / ((n - 1 : ℕ) : ℝ) := by
  have hl : i < (linspace a b n).length := by rwa [linspace_length]
  rw [List.getD_eq_getElem _ _ hl]
  simp [linspace]

lemma getD_map_of_lt {α β : Type} (f : α → β) (l : List α) (i : ℕ)
    (h : i < l.length) (d : β) (d' : α) :
    (l.map f).getD i d = f (l.getD i d') := by
  have hm : i < (l.map f).length := by rwa [List.length_map]
  rw [List.getD_eq_getElem _ _ hm, List.getD_eq_getElem _ _ h, List.getElem_map]

/-! ### Claim theorems -/

/-- C7: for every parameter set, the gamma stored for the put equals the gamma
stored for the call — line 62 assigns `self.put_gamma = self.call_gamma`, the
same formula evaluated on the same inputs. -/
theorem gamma_call_eq_put (bs : BlackScholes) :
    bs.run.put_gamma = bs.run.call_gamma := rfl

/-- C10: running the pricing evaluation leaves the five input fields of the
object unchanged — after `run`, each equals the value supplied at
construction. -/
theorem run_preserves_inputs (t k s v r : ℝ) :
    ((initBS t k s v r).runObj).params.time_to_maturity = t ∧
    ((initBS t k s v r).runObj).params.strike = k ∧
    ((initBS t k s v r).runObj).params.current_price = s ∧
    ((initBS t k s v r).runObj).params.volatility = v ∧
    ((initBS t k s v r).runObj).params.interest_rate = r :=
  ⟨rfl, rfl, rfl, rfl, rfl⟩

/-- C5: for every valid parameter set, the evaluation computes d1, d2, the
call price and the put price exactly by the spec's formulas. -/
theorem run_matches_spec_formulas (bs : BlackScholes)
    (_hs : 0 < bs.current_price) (_hk : 0 < bs.strike)
    (_ht : 0 < bs.time_to_maturity) (_hv : 0 < bs.volatility) :
    bs.d1 = specD1 bs.current_price bs.strike bs.time_to_maturity
      bs.volatility bs.interest_rate ∧
    bs.d2 = specD2 bs.current_price bs.strike bs.time_to_maturity
      bs.volatility bs.interest_rate ∧
    bs.run.call_price = specCallPrice bs.current_price bs.strike
      bs.time_to_maturity bs.volatility bs.interest_rate ∧
    bs.run.put_price = specPutPrice bs.current_price bs.strike
      bs.time_to_maturity bs.volatility bs.interest_rate :=
  ⟨rfl, rfl, rfl, rfl⟩

/-- Witness for C5 at spot=1, strike=1, maturity=1, volatility=1, rate=1. -/
theorem run_matches_spec_formulas_witness :
    BlackScholes.d1 ⟨1, 1, 1, 1, 1⟩ = specD1 1 1 1 1 1 ∧
    BlackScholes.d2 ⟨1, 1, 1, 1, 1⟩ = specD2 1 1 1 1 1 ∧
    (BlackScholes.run ⟨1, 1, 1, 1, 1⟩).call_price = specCallPrice 1 1 1 1 1 ∧
    (BlackScholes.run ⟨1, 1, 1, 1, 1⟩).put_price = specPutPrice 1 1 1 1 1 :=
  run_matches_spec_formulas ⟨1, 1, 1, 1, 1⟩ one_pos one_pos one_pos one_pos

/-- C4: put-call parity — for every valid parameter set,
`callPrice - putPrice = spot - strike * exp(-rate*maturity)`. -/
theorem put_call_parity (bs : BlackScholes)
    (_hs : 0 < bs.current_price) (_hk : 0 < bs.strike)
    (_ht : 0 < bs.time_to_maturity) (_hv : 0 < bs.volatility) :
    bs.run.call_price - bs.run.put_price =
      bs.current_price -
        bs.strike * Real.exp (-(bs.interest_rate * bs.time_to_maturity)) := by
  simp only [BlackScholes.run, normCdf_neg_arg]
  ring

/-- Witness for C4 at spot=1, strike=1, maturity=1, volatility=1, rate=1. -/
theorem put_call_parity_witness :
    (BlackScholes.run ⟨1, 1, 1, 1, 1⟩).call_price -
      (BlackScholes.run ⟨1, 1, 1, 1, 1⟩).put_price =
      (1 : ℝ) - 1 * Real.exp (-((1 : ℝ) * 1)) :=
  put_call_parity ⟨1, 1, 1, 1, 1⟩ one_pos one_pos one_pos one_pos

lemma linspace_spacing (a b : ℝ) {i n : ℕ} (h : i + 1 < n) :
    (linspace a b n).getD (i + 1) 0 - (linspace a b n).getD i 0 =
      (b - a) / ((n - 1 : ℕ) : ℝ) := by
  rw [linspace_getD a b h, linspace_getD a b (Nat.lt_of_succ_lt h)]
  push_cast
  ring

lemma linspace_strict_mono (a b : ℝ) (hab : a < b) {i n : ℕ} (h : i + 1 < n) :
    (linspace a b n).getD i 0 < (linspace a b n).getD (i + 1) 0 := by
  rw [linspace_getD a b h, linspace_getD a b (Nat.lt_of_succ_lt h)]
  have hn : (0 : ℝ) < ((n - 1 : ℕ) : ℝ) := by
    exact_mod_cast (by omega : 0 < n - 1)
  apply add_lt_add_left
  apply div_lt_div_of_pos_right ?_ hn
  push_cast
  have hi : (0 : ℝ) ≤ (i : ℝ) := Nat.cast_nonneg i
  nlinarith

/-- C1 (code bug): at the reference inputs spot=100, strike=100, maturity=1,
volatility=0.2, rate=0.05, the stored put delta is `1 - Φ(d1)`
(the negative of the claimed value), so it does not equal `callDelta - 1`. -/
theorem put_delta_sign_bug :
    (BlackScholes.run ⟨1, 100, 100, 0.2, 0.05⟩).put_delta =
      1 - (BlackScholes.run ⟨1, 100, 100, 0.2, 0.05⟩).call_delta ∧
    (BlackScholes.run ⟨1, 100, 100, 0.2, 0.05⟩).put_delta ≠
      (BlackScholes.run ⟨1, 100, 100, 0.2, 0.05⟩).call_delta - 1 := by
  refine ⟨rfl, fun h => ?_⟩
  simp only [BlackScholes.run] at h
  have h1 : normCdf (BlackScholes.d1 ⟨1, 100, 100, 0.2, 0.05⟩) = 1 := by linarith
  exact absurd h1 (ne_of_lt (normCdf_lt_one _))

/-- C2 (code bug): at spot=1, strike=2, maturity=1, volatility=1, rate=0 the
stored gamma, which divides by `strike`, differs from the spec's
`φ(d1) / (spot*volatility*sqrt(maturity))`. -/
theorem call_gamma_strike_bug :
    (BlackScholes.run ⟨1, 2, 1, 1, 0⟩).call_gamma ≠ specGamma 1 2 1 1 0 := by
  intro h
  simp only [BlackScholes.run, specGamma] at h
  rw [show BlackScholes.d1 ⟨1, 2, 1, 1, 0⟩ = specD1 1 2 1 1 0 from rfl,
    Real.sqrt_one] at h
  norm_num at h
  have hp := normPdf_pos (specD1 1 2 1 1 0)
  linarith

/-- C3 (amended): `run` performs no parameter validation at all.  For any
inputs with `strike ≠ 0` — including non-positive spot, maturity or
volatility — it returns a result without failing, and when `strike = 0` it
aborts with `ZeroDivisionError`, never with `InvalidParameter`. -/
theorem run_no_validation (bs : BlackScholes) :
    (bs.strike ≠ 0 → bs.runExc = Except.ok bs.run) ∧
    (bs.strike = 0 → bs.runExc = Except.error RunError.zeroDivisionError) := by
  constructor
  · intro h
    simp [BlackScholes.runExc, h]
  · intro h
    simp [BlackScholes.runExc, h]

/-- Witness for the amended C3: with strike = 0 the evaluation aborts with a
division error, not `InvalidParameter`. -/
theorem run_no_validation_witness :
    BlackScholes.runExc ⟨0, 0, 0, 0, 0⟩ =
      Except.error RunError.zeroDivisionError :=
  (run_no_validation ⟨0, 0, 0, 0, 0⟩).2 rfl

/-- C3 (counterexample): at maturity = -1 (with the other inputs valid) the
claim says the evaluation fails with `InvalidParameter`; instead it returns a
result and fails with nothing. -/
theorem run_accepts_negative_maturity :
    BlackScholes.runExc ⟨-1, 100, 100, 0.2, 0.05⟩ =
      Except.ok (BlackScholes.run ⟨-1, 100, 100, 0.2, 0.05⟩) := by
  have h : (⟨-1, 100, 100, 0.2, 0.05⟩ : BlackScholes).strike ≠ 0 := by
    show (100 : ℝ) ≠ 0
    norm_num
  simp [BlackScholes.runExc, h]

/-- C8: the spot axis is 50 equally spaced points from spot*0.5 to spot*1.5
and the volatility axis 50 equally spaced points from max(0.01, vol*0.5) to
min(1.0, vol*1.5); under the UI input ranges (spot > 0, 0.01 ≤ vol ≤ 1) both
axes are strictly increasing with constant spacing. -/
theorem grid_axes_spec (s v : ℝ) (hs : 0 < s) (hv1 : 0.01 ≤ v) (hv2 : v ≤ 1)
    (i : ℕ) (hi : i + 1 < 50) :
    (spot_range s).length = 50 ∧
    (vol_range v).length = 50 ∧
    (spot_range s).getD 0 0 = s * 0.5 ∧
    (spot_range s).getD 49 0 = s * 1.5 ∧
    (vol_range v).getD 0 0 = max 0.01 (v * 0.5) ∧
    (vol_range v).getD 49 0 = min 1.0 (v * 1.5) ∧
    (spot_range s).getD (i + 1) 0 - (spot_range s).getD i 0 =
      (s * 1.5 - s * 0.5) / 49 ∧
    (vol_range v).getD (i + 1) 0 - (vol_range v).getD i 0 =
      (min 1.0 (v * 1.5) - max 0.01 (v * 0.5)) / 49 ∧
    (spot_range s).getD i 0 < (spot_range s).getD (i + 1) 0 ∧
    (vol_range v).getD i 0 < (vol_range v).getD (i + 1) 0 := by
  have hvb : max 0.01 (v * 0.5) < min 1.0 (v * 1.5) :=
    max_lt (lt_min (by norm_num) (by linarith))
      (lt_min (by linarith) (by linarith))
  refine ⟨linspace_length _ _ _, linspace_length _ _ _, ?_, ?_, ?_, ?_, ?_, ?_,
    linspace_strict_mono _ _ (by linarith) hi,
    linspace_strict_mono _ _ hvb hi⟩
  · show (linspace (s * 0.5) (s * 1.5) 50).getD 0 0 = s * 0.5
    rw [linspace_getD _ _ (by norm_num : (0 : ℕ) < 50)]
    norm_num
  · show (linspace (s * 0.5) (s * 1.5) 50).getD 49 0 = s * 1.5
    rw [linspace_getD _ _ (by norm_num : (49 : ℕ) < 50)]
    norm_num
  · show (linspace (max 0.01 (v * 0.5)) (min 1.0 (v * 1.5)) 50).getD 0 0 =
      max 0.01 (v * 0.5)
    rw [linspace_getD _ _ (by norm_num : (0 : ℕ) < 50)]
    norm_num
  · show (linspace (max 0.01 (v * 0.5)) (min 1.0 (v * 1.5)) 50).getD 49 0 =
      min 1.0 (v * 1.5)
    rw [linspace_getD _ _ (by norm_num : (49 : ℕ) < 50)]
    ring_nf
  · show (linspace (s * 0.5) (s * 1.5) 50).getD (i + 1) 0 -
      (linspace (s * 0.5) (s * 1.5) 50).getD i 0 = (s * 1.5 - s * 0.5) / 49
    rw [linspace_spacing _ _ hi]
    norm_num
  · show (linspace (max 0.01 (v * 0.5)) (min 1.0 (v * 1.5)) 50).getD (i + 1) 0 -
      (linspace (max 0.01 (v * 0.5)) (min 1.0 (v * 1.5)) 50).getD i 0 =
      (min 1.0 (v * 1.5) - max 0.01 (v * 0.5)) / 49
    rw [linspace_spacing _ _ hi]
    norm_num

/-- Witness for C8 at spot=100, volatility=0.2, i=3. -/
theorem grid_axes_spec_witness :
    (spot_range 100).length = 50 ∧
    (vol_range 0.2).length = 50 ∧
    (spot_range 100).getD 0 0 = 100 * 0.5 ∧
    (spot_range 100).getD 49 0 = 100 * 1.5 ∧
    (vol_range 0.2).getD 0 0 = max 0.01 (0.2 * 0.5) ∧
    (vol_range 0.2).getD 49 0 = min 1.0 (0.2 * 1.5) ∧
    (spot_range 100).getD (3 + 1) 0 - (spot_range 100).getD 3 0 =
      (100 * 1.5 - 100 * 0.5) / 49 ∧
    (vol_range 0.2).getD (3 + 1) 0 - (vol_range 0.2).getD 3 0 =
      (min 1.0 (0.2 * 1.5) - max 0.01 (0.2 * 0.5)) / 49 ∧
    (spot_range 100).getD 3 0 < (spot_range 100).getD (3 + 1) 0 ∧
    (vol_range 0.2).getD 3 0 < (vol_range 0.2).getD (3 + 1) 0 :=
  grid_axes_spec 100 0.2 (by norm_num) (by norm_num) (by norm_num) 3
    (by norm_num)

/-- C9: every grid cell holds the call (resp. put) price of a fresh parameter
set with maturity, strike and rate at the base values and the axis values at
the cell's spot and volatility indices. -/
theorem grid_cells_spec (t k s v r : ℝ) (i j : ℕ) (hi : i < 50) (hj : j < 50) :
    ((call_prices t k s v r).getD i []).getD j 0 =
      (BlackScholes.run
        ⟨t, k, (spot_range s).getD j 0, (vol_range v).getD i 0, r⟩).call_price ∧
    ((put_prices t k s v r).getD i []).getD j 0 =
      (BlackScholes.run
        ⟨t, k, (spot_range s).getD j 0, (vol_range v).getD i 0, r⟩).put_price := by
  have hvl : i < (vol_range v).length := by
    rw [show (vol_range v).length = 50 from linspace_length _ _ _]
    exact hi
  have hsl : j < (spot_range s).length := by
    rw [show (spot_range s).length = 50 from linspace_length _ _ _]
    exact hj
  constructor
  · simp only [call_prices]
    rw [getD_map_of_lt _ _ _ hvl [] 0, getD_map_of_lt _ _ _ hsl 0 0]
  · simp only [put_prices]
    rw [getD_map_of_lt _ _ _ hvl [] 0, getD_map_of_lt _ _ _ hsl 0 0]

/-- Witness for C9 at the reference base parameters and cell (2, 5). -/
theorem grid_cells_spec_witness :
    ((call_prices 1 100 100 0.2 0.05).getD 2 []).getD 5 0 =
      (BlackScholes.run
        ⟨1, 100, (spot_range 100).getD 5 0,
          (vol_range 0.2).getD 2 0, 0.05⟩).call_price ∧
    ((put_prices 1 100 100 0.2 0.05).getD 2 []).getD 5 0 =
      (BlackScholes.run
        ⟨1, 100, (spot_range 100).getD 5 0,
          (vol_range 0.2).getD 2 0, 0.05⟩).put_price :=
  grid_cells_spec 1 100 100 0.2 0.05 2 5 (by norm_num) (by norm_num)
